import Mathlib

/-!
Verification of the Hari-SIH deployment-support scripts.

The repository holds three Python scripts:
  * `create_fallback_model.py`: `create_simple_fallback_model` builds a
    placeholder model artifact from synthetic random data, and
    `save_fallback_model` persists it under `models/`.
  * `test_models.py`: `test_model_loading` probes candidate artifact files,
    `create_fallback_model` builds a simpler artifact, and its own
    `save_fallback_model` persists it.
  * `health_check.py`: `check_health` polls an HTTP readiness endpoint.

Embedding conventions:
  * numpy's global random generator is modelled as a stream of draws
    (`RandSrc`).  `np.random.seed s` selects the stream `npSeed s` from a
    seed-indexed family `npSeed : Nat → RandSrc`; the stream that was ambient
    before the call is passed as a separate `ambient` argument so that
    independence from caller-side seeding is expressible.  Both builders begin
    with `np.random.seed(42)`, hence use `npSeed 42` and discard `ambient`.
  * `np.random.rand` draws are rationals indexed by (call site, row, column);
    the library contract that they lie in [0,1) is the predicate `WFSrc`.
  * `np.random.randint(0, k, n)` draws are naturals indexed by row, one named
    stream per call site; the contract that they lie below `k` is in `WFSrc`.
  * `np.random.normal mu sigma` is modelled as `mu + sigma * z` where `z` is a
    stream of (unconstrained) rational standard-normal draws indexed by
    (call site, row).
  * sklearn's `LabelEncoder.fit` stores `numpy.unique` of its input: the
    sorted list of distinct category strings; `transform` maps a string to its
    index in that list.
  * A fitted `MultiOutputRegressor(RandomForestRegressor(...))` is modelled as
    a record of its hyperparameters together with the training matrices it was
    fitted on; prediction behaviour is opaque and not needed by any claim.
  * Python dicts with string keys are modelled as association lists, so that
    statements about the exact key sets of the produced artifact are faithful.
  * The file system and the HTTP endpoint are modelled as explicit oracles.
-/

/-- A stream of random draws, standing for numpy's global generator after a
seed call.  `rand c i j` is the (i,j) entry of the matrix produced by the
c-th `np.random.rand` call; `randintMetal`, `randintProcess`, `randintEol`
are the three `np.random.randint` vectors of `create_simple_fallback_model`;
`normal c i` is the standard-normal draw of call site `c` at row `i`. -/
structure RandSrc where
  rand : Nat → Nat → Nat → ℚ
  randintMetal : Nat → Nat
  randintProcess : Nat → Nat
  randintEol : Nat → Nat
  normal : Nat → Nat → ℚ

/-- Fixed category lists (both scripts use the same three lists). -/
def metals : List String :=
  [("Aluminium"), ("Steel"), ("Copper"), ("Zinc"), ("Lead"), ("Nickel"), ("Tin"), ("Gold")]

def processes : List String := [("Primary"), ("Recycled"), ("Hybrid")]

def eol_options : List String := [("Recycled"), ("Landfilled"), ("Reused")]

/-- The library contract of the draws used by the scripts:
`np.random.rand` values lie in [0,1) and each `np.random.randint(0, k, n)`
value lies below its bound `k`. -/
def WFSrc (s : RandSrc) : Prop :=
  (∀ c i j, 0 ≤ s.rand c i j ∧ s.rand c i j < 1)
  ∧ (∀ i, s.randintMetal i < metals.length)
  ∧ (∀ i, s.randintProcess i < processes.length)
  ∧ (∀ i, s.randintEol i < eol_options.length)

/-- Lexicographic (code-point) comparison of character lists, the order
numpy/Python use on these ASCII category strings. -/
def charListLtb : List Char → List Char → Bool
  | _, [] => false
  | [], _ :: _ => true
  | a :: as, b :: bs => if a < b then true else if b < a then false else charListLtb as bs

/-- Lexicographic comparison of strings. -/
def strLtb (a b : String) : Bool := charListLtb a.data b.data

/-- Insertion step of the string sort used to model `numpy.unique`. -/
def insertStr (a : String) : List String → List String
  | [] => [a]
  | b :: bs => if strLtb a b then a :: b :: bs else b :: insertStr a bs

/-- Insertion sort on strings (ascending lexicographic order). -/
def sortStrs : List String → List String
  | [] => []
  | a :: as => insertStr a (sortStrs as)

/-- sklearn `LabelEncoder.fit`: `classes_ = numpy.unique(cats)`, the sorted
list of distinct categories. -/
def labelEncoderFit (cats : List String) : List String := sortStrs cats.dedup

/-- sklearn `LabelEncoder.transform` on a single label: its integer code is
its index in the sorted class list. -/
def leTransform (classes : List String) (s : String) : Option Nat :=
  classes.findIdx? (fun c => c == s)

/-- A (multi-output random-forest) regressor: hyperparameters
`n_estimators` and `random_state`, unfitted or fitted on training matrices
`X`, `y` with a given row count. -/
inductive Regressor where
  | unfitted : Nat → Nat → Regressor
  | fitted : Nat → Nat → (Nat → Nat → ℚ) → (Nat → Nat → ℚ) → Nat → Regressor

/-- `model.fit(X, y)`: the regressor becomes fitted on `X`, `y`. -/
def Regressor.fit : Regressor → (Nat → Nat → ℚ) → (Nat → Nat → ℚ) → Nat → Regressor
  | .unfitted e r, X, y, n => .fitted e r X y n
  | .fitted e r _ _ _, X, y, n => .fitted e r X y n

/-- A Python value stored in the artifact dict. -/
inductive PValue where
  | str : String → PValue
  | nat : Nat → PValue
  | reg : Regressor → PValue
  | enc : List String → PValue
  | dict : List (String × PValue) → PValue

/-- Keys of a dict, in insertion order. -/
def dictKeys (d : List (String × PValue)) : List String := d.map (fun p => p.1)

/-- Dict lookup. -/
def dictGet (d : List (String × PValue)) (k : String) : Option PValue :=
  (d.find? (fun p => p.1 == k)).map (fun p => p.2)

/-- Keys of a nested dict stored under key `k`. -/
def subKeys (d : List (String × PValue)) (k : String) : Option (List String) :=
  match dictGet d k with
  | some (PValue.dict m) => some (dictKeys m)
  | _ => none

/-- Lookup inside the nested `metadata` dict. -/
def metaGet (d : List (String × PValue)) (k : String) : Option PValue :=
  match dictGet d ("metadata") with
  | some (PValue.dict m) => dictGet m k
  | _ => none

/-! ## The synthetic data of `create_simple_fallback_model` -/

/-- `n_samples = 1000` in `create_fallback_model.py`. -/
def n_samples1 : Nat := 1000

/-- The feature dimension: `np.random.rand(n_samples, 13)`. -/
def n_features : Nat := 13

/-- `X_train` of `create_simple_fallback_model`: a `np.random.rand` matrix
whose columns 0..2 are overwritten with the three `randint` vectors and whose
columns 3..6 are scaled by 2000, 20, 30 and 5. -/
def X1 (src : RandSrc) (i j : Nat) : ℚ :=
  if j = 0 then (src.randintMetal i : ℚ)
  else if j = 1 then (src.randintProcess i : ℚ)
  else if j = 2 then (src.randintEol i : ℚ)
  else if j = 3 then src.rand 0 i 3 * 2000
  else if j = 4 then src.rand 0 i 4 * 20
  else if j = 5 then src.rand 0 i 5 * 30
  else if j = 6 then src.rand 0 i 6 * 5
  else src.rand 0 i j

/-- `process_factor = 0.3 if X_train[i, 1] == 1 else 1.0`. -/
def process_factor (src : RandSrc) (i : Nat) : ℚ :=
  if X1 src i 1 = 1 then 3/10 else 1

/-- `y_env` of `create_simple_fallback_model`:
`[max(1, normal(50*pf, 15)), max(0.1, normal(5*pf, 2)), max(0.5, normal(20*pf, 8))]`. -/
def y_env1 (src : RandSrc) (i j : Nat) : ℚ :=
  if j = 0 then max 1 (50 * process_factor src i + 15 * src.normal 0 i)
  else if j = 1 then max (1/10) (5 * process_factor src i + 2 * src.normal 1 i)
  else if j = 2 then max (1/2) (20 * process_factor src i + 8 * src.normal 2 i)
  else 0

/-- `base_circ = 0.8 if X_train[i, 1] == 1 else 0.3`. -/
def base_circ (src : RandSrc) (i : Nat) : ℚ :=
  if X1 src i 1 = 1 then 8/10 else 3/10

/-- `y_circ` of `create_simple_fallback_model`: clamped normal draws around
`base_circ`, `70/20`, `base_circ`. -/
def y_circ1 (src : RandSrc) (i j : Nat) : ℚ :=
  if j = 0 then max 0 (min 1 (base_circ src i + (1/10) * src.normal 3 i))
  else if j = 1 then
    max 0 (min 100 ((if X1 src i 1 = 1 then 70 else 20) + 15 * src.normal 4 i))
  else if j = 2 then max 0 (min 1 (base_circ src i + (1/10) * src.normal 5 i))
  else 0

/-! ## The synthetic data of `test_models.create_fallback_model` -/

/-- `n_samples = 100` in `test_models.py`. -/
def n_samples2 : Nat := 100

/-- `X_sample = np.random.rand(n_samples, 13)`: raw uniform draws, no integer
coding and no rescaling. -/
def X2 (src : RandSrc) (i j : Nat) : ℚ := src.rand 0 i j

/-- `y_env = np.random.rand(n_samples, 3) * [100, 10, 50]`. -/
def y_env2 (src : RandSrc) (i j : Nat) : ℚ :=
  src.rand 1 i j * (if j = 0 then 100 else if j = 1 then 10 else 50)

/-- `y_circ = np.random.rand(n_samples, 3) * [1, 100, 1]`. -/
def y_circ2 (src : RandSrc) (i j : Nat) : ℚ :=
  src.rand 2 i j * (if j = 0 then 1 else if j = 1 then 100 else 1)

/-! ## The two artifact builders -/

/-- `create_simple_fallback_model` of `create_fallback_model.py`.  It takes no
Python parameters; `ambient` is the random stream in effect at call time and
`npSeed` the seed-indexed stream family of the global generator.  The body's
first random action is `np.random.seed(42)`, so all draws come from
`npSeed 42` and `ambient` is discarded. -/
def create_simple_fallback_model (_ambient : RandSrc) (npSeed : Nat → RandSrc) :
    List (String × PValue) :=
  let src := npSeed 42
  let env_model := (Regressor.unfitted 50 42).fit (X1 src) (y_env1 src) n_samples1
  let circ_model := (Regressor.unfitted 50 42).fit (X1 src) (y_circ1 src) n_samples1
  [(("model_type"), PValue.str ("optimized_dual_target")),
   (("environmental_model"), PValue.reg env_model),
   (("circularity_models"), PValue.dict [(("RandomForest"), PValue.reg circ_model)]),
   (("circularity_best_model"), PValue.str ("RandomForest")),
   (("label_encoders"), PValue.dict
     [(("Metal"), PValue.enc (labelEncoderFit metals)),
      (("Process_Type"), PValue.enc (labelEncoderFit processes)),
      (("End_of_Life"), PValue.enc (labelEncoderFit eol_options))]),
   (("metadata"), PValue.dict
     [(("model_version"), PValue.str ("railway_fallback_v1.0")),
      (("feature_alignment"), PValue.str ("corrected")),
      (("features_count"), PValue.nat 13),
      (("created_by"), PValue.str ("railway_deployment_fallback")),
      (("description"), PValue.str
        ("Simple fallback model for Railway deployment when LFS models unavailable"))])]

/-- `create_fallback_model` of `test_models.py`, with the same random-stream
conventions; it also begins with `np.random.seed(42)`. -/
def create_fallback_model (_ambient : RandSrc) (npSeed : Nat → RandSrc) :
    List (String × PValue) :=
  let src := npSeed 42
  let environmental_model :=
    (Regressor.unfitted 10 42).fit (X2 src) (y_env2 src) n_samples2
  let circ_model := (Regressor.unfitted 10 42).fit (X2 src) (y_circ2 src) n_samples2
  [(("model_type"), PValue.str ("optimized_dual_target")),
   (("environmental_model"), PValue.reg environmental_model),
   (("circularity_models"), PValue.dict [(("RandomForest"), PValue.reg circ_model)]),
   (("circularity_best_model"), PValue.str ("RandomForest")),
   (("label_encoders"), PValue.dict
     [(("Metal"), PValue.enc (labelEncoderFit metals)),
      (("Process_Type"), PValue.enc (labelEncoderFit processes)),
      (("End_of_Life"), PValue.enc (labelEncoderFit eol_options))]),
   (("metadata"), PValue.dict
     [(("model_version"), PValue.str ("fallback_v1.0")),
      (("feature_alignment"), PValue.str ("corrected")),
      (("features_count"), PValue.nat 13),
      (("created_by"), PValue.str ("fallback_generator"))])]

/-! ## Health poller (`health_check.py`) -/

/-- `max_attempts = 30` in `check_health`. -/
def max_attempts : Nat := 30

/-- One polling loop of `check_health`.  The endpoint is the oracle
`resp : Nat → Option Nat`: `resp k = some c` means attempt `k` received HTTP
status `c`, `resp k = none` means `requests.get` raised a
`RequestException` (connection failure or timeout), which the source catches.
Returns the boolean result together with the number of GET requests issued.
`fuel` counts the remaining attempts, `k` the next attempt index. -/
def checkHealthAux (resp : Nat → Option Nat) : Nat → Nat → Bool × Nat
  | 0, k => (false, k)
  | Nat.succ fuel, k =>
    if resp k = some 200 then (true, k + 1)
    else checkHealthAux resp fuel (k + 1)

/-- `check_health`: poll up to `max_attempts` times starting at attempt 0. -/
def check_health (resp : Nat → Option Nat) : Bool × Nat :=
  checkHealthAux resp max_attempts 0

/-! ## Artifact loading (`test_models.test_model_loading`) -/

/-- The candidate paths probed by `test_model_loading`, in order. -/
def model_paths : List String :=
  [("models/corrected_optimized_dual_target_model.pkl"),
   ("models/clean_optimized_dual_target_model.pkl"),
   ("models/lca_model.pkl"),
   ("models/final_optimized_lca_model.pkl")]

/-- File-system oracle for loading: `pathExists` models `os.path.exists`,
`load` models `open` + `pickle.load` (`Except.error` is a raised exception,
which the source catches). -/
structure LoadFS where
  pathExists : String → Bool
  load : String → Except String PValue

/-- The loop body of `test_model_loading` over a path list: skip paths that
do not exist, catch deserialization errors and move on, return the first
success. -/
def loadChain (fs : LoadFS) : List String → Option String × Option PValue
  | [] => (none, none)
  | p :: rest =>
    if fs.pathExists p then
      match fs.load p with
      | Except.ok m => (some p, some m)
      | Except.error _ => loadChain fs rest
    else loadChain fs rest

/-- `test_model_loading`: run the chain over the fixed candidate list. -/
def test_model_loading (fs : LoadFS) : Option String × Option PValue :=
  loadChain fs model_paths

/-- A candidate succeeds when it exists and deserializes without error. -/
def loadOk (fs : LoadFS) (p : String) : Prop :=
  fs.pathExists p = true ∧ ∃ m, fs.load p = Except.ok m

/-! ## Artifact saving (the two `save_fallback_model` functions) -/

/-- File-system state for saving: the set of existing directories and the
written files. -/
structure SaveFS where
  dirs : List String
  files : List (String × PValue)

/-- `os.makedirs(d, exist_ok=True)`: idempotent directory creation. -/
def makedirs (fs : SaveFS) (d : String) : SaveFS :=
  if fs.dirs.contains d then fs else SaveFS.mk (d :: fs.dirs) fs.files

/-- Parent directory of a path: everything before the last slash
(`models/x.pkl` has parent `models`). -/
def parentDir (p : String) : String :=
  String.mk (((p.data.reverse.dropWhile (fun c => c != '/')).drop 1).reverse)

/-- `open(path, 'wb')` followed by `pickle.dump`: fails (raises) when the
parent directory does not exist, or when serialization or the write fails for
any other reason — the latter modelled by the oracle `writeOk`. -/
def openWriteDump (fs : SaveFS) (path : String) (writeOk : Bool) (art : PValue) :
    Except String SaveFS :=
  if fs.dirs.contains (parentDir path) = false then Except.error ("FileNotFoundError")
  else if writeOk = false then Except.error ("PicklingError")
  else Except.ok (SaveFS.mk fs.dirs ((path, art) :: fs.files))

/-- `save_fallback_model` of `create_fallback_model.py`: create `models/`
(idempotently), build the artifact, then try to write it, reporting failure
as `false`. -/
def save_fallback_model1 (fs : SaveFS) (ambient : RandSrc) (npSeed : Nat → RandSrc)
    (writeOk : Bool) : Bool × SaveFS :=
  let fs1 := makedirs fs ("models")
  let model_data := create_simple_fallback_model ambient npSeed
  match openWriteDump fs1 ("models/railway_fallback_model.pkl") writeOk
      (PValue.dict model_data) with
  | Except.ok fs2 => (true, fs2)
  | Except.error _ => (false, fs1)

/-- `save_fallback_model` of `test_models.py`: no directory creation; try to
write the given artifact, reporting failure as `false`. -/
def save_fallback_model2 (fs : SaveFS) (model_data : PValue) (writeOk : Bool) :
    Bool × SaveFS :=
  match openWriteDump fs ("models/fallback_model.pkl") writeOk model_data with
  | Except.ok fs2 => (true, fs2)
  | Except.error _ => (false, fs)

/-! ## Spec-side generator and concrete streams for witnesses -/

/-- The feature matrix of the generator as §4.1 of the spec describes it:
parameterized by an explicitly passed seed, drawing from the stream selected
by that seed (declared for comparison with the source generator, which
hard-codes seed 42). -/
def specSeededGeneratorX (npSeed : Nat → RandSrc) (seed : Nat) (i j : Nat) : ℚ :=
  X1 (npSeed seed) i j

/-- The (0-based) training-matrix entry `(i, j)` of the fitted
`environmental_model` stored in an artifact. -/
def artifactTrainXEntry (art : List (String × PValue)) (i j : Nat) : Option ℚ :=
  match dictGet art ("environmental_model") with
  | some (PValue.reg (Regressor.fitted _ _ X _ _)) => some (X i j)
  | _ => none

/-- The all-zero draw stream (a well-formed instance of the library
contract). -/
def src0 : RandSrc :=
  RandSrc.mk (fun _ _ _ => 0) (fun _ => 0) (fun _ => 0) (fun _ => 0) (fun _ _ => 0)

/-- A stream whose `Process_Type` codes are all 1 (the code of `Primary`). -/
def srcP1 : RandSrc :=
  RandSrc.mk (fun _ _ _ => 0) (fun _ => 0) (fun _ => 1) (fun _ => 0) (fun _ _ => 0)

/-- A stream whose `Process_Type` codes are all 2 (the code of `Recycled`). -/
def srcP2 : RandSrc :=
  RandSrc.mk (fun _ _ _ => 0) (fun _ => 0) (fun _ => 2) (fun _ => 0) (fun _ _ => 0)

/-- A concrete seed-indexed stream family whose uniform draws are `seed/100`:
distinct seeds give distinct draws, making seed (in)dependence observable. -/
def envC (seed : Nat) : RandSrc :=
  RandSrc.mk (fun _ _ _ => (seed : ℚ) / 100) (fun _ => 0) (fun _ => 0) (fun _ => 0)
    (fun _ _ => 0)

/-- A loading oracle under which only `models/lca_model.pkl` exists (and it
deserializes fine). -/
def fsW : LoadFS :=
  LoadFS.mk (fun p => p == ("models/lca_model.pkl")) (fun _ => Except.ok (PValue.str ("m")))

/-- An endpoint that never returns HTTP 200. -/
def respFailAll : Nat → Option Nat := fun _ => some 503

/-- An endpoint that fails twice (exception) and returns HTTP 200 on the
third attempt. -/
def respThird : Nat → Option Nat := fun k => if k = 2 then some 200 else none

/-- The empty file system. -/
def fsEmpty : SaveFS := SaveFS.mk [] []

/-! ## Helper lemmas -/

theorem makedirs_contains (fs : SaveFS) (d : String) :
    (makedirs fs d).dirs.contains d = true := by
  unfold makedirs
  cases hc : fs.dirs.contains d with
  | true => rw [if_pos rfl]; exact hc
  | false => rw [if_neg (by simp)]; simp

theorem makedirs_idem (fs : SaveFS) (d : String) :
    makedirs (makedirs fs d) d = makedirs fs d := by
  have h := makedirs_contains fs d
  unfold makedirs at h ⊢
  rw [if_pos h]

theorem checkHealthAux_fail (resp : Nat → Option Nat) :
    ∀ fuel k, (∀ j, k ≤ j → j < k + fuel → resp j ≠ some 200) →
      checkHealthAux resp fuel k = (false, k + fuel) := by
  intro fuel
  induction fuel with
  | zero => intro k _; simp [checkHealthAux]
  | succ n ih =>
    intro k h
    have hk : ¬ resp k = some 200 := h k le_rfl (by omega)
    have e : k + (n + 1) = (k + 1) + n := by omega
    rw [e]
    simp only [checkHealthAux, if_neg hk]
    exact ih (k + 1) (fun j hj1 hj2 => h j (by omega) (by omega))

theorem checkHealthAux_success (resp : Nat → Option Nat) :
    ∀ fuel k m, k ≤ m → m < k + fuel → resp m = some 200 →
      (∀ j, k ≤ j → j < m → resp j ≠ some 200) →
      checkHealthAux resp fuel k = (true, m + 1) := by
  intro fuel
  induction fuel with
  | zero => intro k m h1 h2 _ _; omega
  | succ n ih =>
    intro k m h1 h2 hm hprev
    rcases Nat.eq_or_lt_of_le h1 with he | hlt
    · subst he
      simp [checkHealthAux, hm]
    · have hk : ¬ resp k = some 200 := hprev k le_rfl hlt
      simp only [checkHealthAux, if_neg hk]
      exact ih (k + 1) m hlt (by omega) hm (fun j hj1 hj2 => hprev j (by omega) hj2)

theorem X1_eq3 (src : RandSrc) (i : Nat) : X1 src i 3 = src.rand 0 i 3 * 2000 := rfl

theorem X1_eq4 (src : RandSrc) (i : Nat) : X1 src i 4 = src.rand 0 i 4 * 20 := rfl

theorem X1_eq5 (src : RandSrc) (i : Nat) : X1 src i 5 = src.rand 0 i 5 * 30 := rfl

theorem X1_eq6 (src : RandSrc) (i : Nat) : X1 src i 6 = src.rand 0 i 6 * 5 := rfl

theorem y_env1_eq0 (src : RandSrc) (i : Nat) :
    y_env1 src i 0 = max 1 (50 * process_factor src i + 15 * src.normal 0 i) := rfl

theorem y_env1_eq1 (src : RandSrc) (i : Nat) :
    y_env1 src i 1 = max (1/10) (5 * process_factor src i + 2 * src.normal 1 i) := rfl

theorem y_env1_eq2 (src : RandSrc) (i : Nat) :
    y_env1 src i 2 = max (1/2) (20 * process_factor src i + 8 * src.normal 2 i) := rfl

theorem y_circ1_eq0 (src : RandSrc) (i : Nat) :
    y_circ1 src i 0 = max 0 (min 1 (base_circ src i + (1/10) * src.normal 3 i)) := rfl

theorem y_circ1_eq1 (src : RandSrc) (i : Nat) :
    y_circ1 src i 1 =
      max 0 (min 100 ((if X1 src i 1 = 1 then 70 else 20) + 15 * src.normal 4 i)) := rfl

theorem y_circ1_eq2 (src : RandSrc) (i : Nat) :
    y_circ1 src i 2 = max 0 (min 1 (base_circ src i + (1/10) * src.normal 5 i)) := rfl

theorem y_env2_eq0 (src : RandSrc) (i : Nat) : y_env2 src i 0 = src.rand 1 i 0 * 100 := rfl

theorem y_env2_eq1 (src : RandSrc) (i : Nat) : y_env2 src i 1 = src.rand 1 i 1 * 10 := rfl

theorem y_env2_eq2 (src : RandSrc) (i : Nat) : y_env2 src i 2 = src.rand 1 i 2 * 50 := rfl

theorem y_circ2_eq0 (src : RandSrc) (i : Nat) : y_circ2 src i 0 = src.rand 2 i 0 * 1 := rfl

theorem y_circ2_eq1 (src : RandSrc) (i : Nat) : y_circ2 src i 1 = src.rand 2 i 1 * 100 := rfl

theorem y_circ2_eq2 (src : RandSrc) (i : Nat) : y_circ2 src i 2 = src.rand 2 i 2 * 1 := rfl

theorem loadChain_none (fs : LoadFS) :
    ∀ ps, (∀ p ∈ ps, ¬ loadOk fs p) → loadChain fs ps = (none, none) := by
  intro ps
  induction ps with
  | nil => intro _; rfl
  | cons p rest ih =>
    intro h
    have hp : ¬ loadOk fs p := h p (by simp)
    cases hpe : fs.pathExists p with
    | false =>
      simp only [loadChain, hpe, Bool.false_eq_true, if_false]
      exact ih (fun q hq => h q (by simp [hq]))
    | true =>
      cases hl : fs.load p with
      | ok m => exact absurd ⟨hpe, m, hl⟩ hp
      | error e =>
        simp only [loadChain, hpe, hl, if_true]
        exact ih (fun q hq => h q (by simp [hq]))

theorem loadChain_first_success (fs : LoadFS) (p : String) (m : PValue)
    (hpe : fs.pathExists p = true) (hl : fs.load p = Except.ok m) :
    ∀ l, (∀ q ∈ l, ¬ loadOk fs q) →
      ∀ r, loadChain fs (l ++ p :: r) = (some p, some m) := by
  intro l
  induction l with
  | nil => intro _ r; simp [loadChain, hpe, hl]
  | cons q l ih =>
    intro h r
    have hq : ¬ loadOk fs q := h q (by simp)
    cases hqe : fs.pathExists q with
    | false =>
      simp only [List.cons_append, loadChain, hqe, Bool.false_eq_true, if_false]
      exact ih (fun x hx => h x (by simp [hx])) r
    | true =>
      cases hql : fs.load q with
      | ok mm => exact absurd ⟨hqe, mm, hql⟩ hq
      | error e =>
        simp only [List.cons_append, loadChain, hqe, hql, if_true]
        exact ih (fun x hx => h x (by simp [hx])) r

/-! ## Claims -/

/-- Claim C1: every artifact mapping produced by either fallback builder has
exactly the top-level keys `model_type`, `environmental_model`,
`circularity_models`, `circularity_best_model`, `label_encoders` and
`metadata`; its `label_encoders` has exactly the entries `Metal`,
`Process_Type` and `End_of_Life`; and its `metadata` carries a version tag,
the feature count 13 and a provenance string identifying a generated
fallback. -/
theorem C1_artifact_schema (a : RandSrc) (e : Nat → RandSrc) :
    dictKeys (create_simple_fallback_model a e) =
      [("model_type"), ("environmental_model"), ("circularity_models"),
       ("circularity_best_model"), ("label_encoders"), ("metadata")]
  ∧ dictKeys (create_fallback_model a e) =
      [("model_type"), ("environmental_model"), ("circularity_models"),
       ("circularity_best_model"), ("label_encoders"), ("metadata")]
  ∧ subKeys (create_simple_fallback_model a e) ("label_encoders") =
      some [("Metal"), ("Process_Type"), ("End_of_Life")]
  ∧ subKeys (create_fallback_model a e) ("label_encoders") =
      some [("Metal"), ("Process_Type"), ("End_of_Life")]
  ∧ metaGet (create_simple_fallback_model a e) ("model_version") =
      some (PValue.str ("railway_fallback_v1.0"))
  ∧ metaGet (create_simple_fallback_model a e) ("features_count") = some (PValue.nat 13)
  ∧ metaGet (create_simple_fallback_model a e) ("created_by") =
      some (PValue.str ("railway_deployment_fallback"))
  ∧ metaGet (create_fallback_model a e) ("model_version") =
      some (PValue.str ("fallback_v1.0"))
  ∧ metaGet (create_fallback_model a e) ("features_count") = some (PValue.nat 13)
  ∧ metaGet (create_fallback_model a e) ("created_by") =
      some (PValue.str ("fallback_generator")) :=
  ⟨rfl, rfl, rfl, rfl, rfl, rfl, rfl, rfl, rfl, rfl⟩

/-- Claim C8: in every artifact returned by either builder, the value stored
under `circularity_best_model` is a key of that artifact's
`circularity_models` mapping. -/
theorem C8_best_model_key (a : RandSrc) (e : Nat → RandSrc) :
    (∃ b ks, dictGet (create_simple_fallback_model a e) ("circularity_best_model") =
        some (PValue.str b)
      ∧ subKeys (create_simple_fallback_model a e) ("circularity_models") = some ks
      ∧ b ∈ ks)
  ∧ (∃ b ks, dictGet (create_fallback_model a e) ("circularity_best_model") =
        some (PValue.str b)
      ∧ subKeys (create_fallback_model a e) ("circularity_models") = some ks
      ∧ b ∈ ks) :=
  ⟨⟨("RandomForest"), [("RandomForest")], rfl, rfl, by simp⟩,
   ⟨("RandomForest"), [("RandomForest")], rfl, rfl, by simp⟩⟩

/-- Claim C10: every label encoder placed in an artifact by either builder is
fitted on its fixed category list, with classes listed (hence coded) in
ascending lexicographic order; in particular the `Process_Type` encoder maps
`Hybrid` to 0, `Primary` to 1 and `Recycled` to 2. -/
theorem C10_label_encoders (a : RandSrc) (e : Nat → RandSrc) :
    dictGet (create_simple_fallback_model a e) ("label_encoders") = some (PValue.dict
      [(("Metal"), PValue.enc (labelEncoderFit metals)),
       (("Process_Type"), PValue.enc (labelEncoderFit processes)),
       (("End_of_Life"), PValue.enc (labelEncoderFit eol_options))])
  ∧ dictGet (create_fallback_model a e) ("label_encoders") = some (PValue.dict
      [(("Metal"), PValue.enc (labelEncoderFit metals)),
       (("Process_Type"), PValue.enc (labelEncoderFit processes)),
       (("End_of_Life"), PValue.enc (labelEncoderFit eol_options))])
  ∧ labelEncoderFit metals =
      [("Aluminium"), ("Copper"), ("Gold"), ("Lead"), ("Nickel"), ("Steel"),
       ("Tin"), ("Zinc")]
  ∧ labelEncoderFit processes = [("Hybrid"), ("Primary"), ("Recycled")]
  ∧ labelEncoderFit eol_options = [("Landfilled"), ("Recycled"), ("Reused")]
  ∧ List.Pairwise (fun x y => strLtb x y = true) (labelEncoderFit metals)
  ∧ List.Pairwise (fun x y => strLtb x y = true) (labelEncoderFit processes)
  ∧ List.Pairwise (fun x y => strLtb x y = true) (labelEncoderFit eol_options)
  ∧ leTransform (labelEncoderFit processes) ("Hybrid") = some 0
  ∧ leTransform (labelEncoderFit processes) ("Primary") = some 1
  ∧ leTransform (labelEncoderFit processes) ("Recycled") = some 2 :=
  ⟨rfl, rfl, by decide, by decide, by decide, by decide, by decide, by decide,
   by decide, by decide, by decide⟩

/-- Claim C3 (divergence): the fitted `Process_Type` encoder assigns
`Recycled` the code 2 and `Primary` the code 1, while the generator's
`process_factor` and `base_circ` tests compare the code against 1: a row
whose `Process_Type` code means `Recycled` (2) gets the 1.0 environmental
factor and the low circularity baseline, and a row whose code means `Primary`
(1) gets the 0.3 factor and the high baseline — the opposite of the claim and
of the code's own comments. -/
theorem C3_divergence :
    leTransform (labelEncoderFit processes) ("Recycled") = some 2
  ∧ leTransform (labelEncoderFit processes) ("Primary") = some 1
  ∧ WFSrc srcP2 ∧ X1 srcP2 0 1 = 2
  ∧ process_factor srcP2 0 = 1 ∧ base_circ srcP2 0 = 3/10
  ∧ y_env1 srcP2 0 0 = 50 ∧ y_circ1 srcP2 0 0 = 3/10
  ∧ WFSrc srcP1 ∧ X1 srcP1 0 1 = 1
  ∧ process_factor srcP1 0 = 3/10 ∧ base_circ srcP1 0 = 8/10
  ∧ y_env1 srcP1 0 0 = 15 ∧ y_circ1 srcP1 0 0 = 8/10 := by
  refine ⟨by decide, by decide,
    by norm_num [WFSrc, srcP2, metals, processes, eol_options],
    by norm_num [X1, srcP2], by norm_num [process_factor, X1, srcP2],
    by norm_num [base_circ, X1, srcP2], ?_, ?_,
    by norm_num [WFSrc, srcP1, metals, processes, eol_options],
    by norm_num [X1, srcP1], by norm_num [process_factor, X1, srcP1],
    by norm_num [base_circ, X1, srcP1], ?_, ?_⟩
  · norm_num [y_env1, process_factor, X1, srcP2]
  · norm_num [y_circ1, base_circ, X1, srcP2]
  · norm_num [y_env1, process_factor, X1, srcP1]
  · norm_num [y_circ1, base_circ, X1, srcP1]

/-- Claim C2 (amended): for every well-formed draw stream and every row, both
builders keep the circularity index and reuse potential in [0,1] and the
recycled-content percentage in [0,100]; `create_simple_fallback_model` floors
its environmental targets at 1, 0.1 and 0.5 (hence strictly positive), while
`create_fallback_model` of `test_models.py` only scales raw uniform draws, so
its environmental targets are nonnegative and below 100, 10 and 50 but carry
no positive floor. -/
theorem C2_target_ranges (src : RandSrc) (i : Nat) (h : WFSrc src) :
    (1 ≤ y_env1 src i 0 ∧ 1/10 ≤ y_env1 src i 1 ∧ 1/2 ≤ y_env1 src i 2)
  ∧ (0 < y_env1 src i 0 ∧ 0 < y_env1 src i 1 ∧ 0 < y_env1 src i 2)
  ∧ (0 ≤ y_circ1 src i 0 ∧ y_circ1 src i 0 ≤ 1)
  ∧ (0 ≤ y_circ1 src i 1 ∧ y_circ1 src i 1 ≤ 100)
  ∧ (0 ≤ y_circ1 src i 2 ∧ y_circ1 src i 2 ≤ 1)
  ∧ (0 ≤ y_circ2 src i 0 ∧ y_circ2 src i 0 < 1)
  ∧ (0 ≤ y_circ2 src i 1 ∧ y_circ2 src i 1 < 100)
  ∧ (0 ≤ y_circ2 src i 2 ∧ y_circ2 src i 2 < 1)
  ∧ (0 ≤ y_env2 src i 0 ∧ y_env2 src i 0 < 100)
  ∧ (0 ≤ y_env2 src i 1 ∧ y_env2 src i 1 < 10)
  ∧ (0 ≤ y_env2 src i 2 ∧ y_env2 src i 2 < 50) := by
  obtain ⟨hr, -, -, -⟩ := h
  have h10 := hr 1 i 0; have h11 := hr 1 i 1; have h12 := hr 1 i 2
  have h20 := hr 2 i 0; have h21 := hr 2 i 1; have h22 := hr 2 i 2
  refine ⟨⟨?_, ?_, ?_⟩, ⟨?_, ?_, ?_⟩, ⟨?_, ?_⟩, ⟨?_, ?_⟩, ⟨?_, ?_⟩, ⟨?_, ?_⟩,
    ⟨?_, ?_⟩, ⟨?_, ?_⟩, ⟨?_, ?_⟩, ⟨?_, ?_⟩, ⟨?_, ?_⟩⟩
  · rw [y_env1_eq0]; exact le_max_left _ _
  · rw [y_env1_eq1]; exact le_max_left _ _
  · rw [y_env1_eq2]; exact le_max_left _ _
  · rw [y_env1_eq0]; exact lt_of_lt_of_le one_pos (le_max_left _ _)
  · rw [y_env1_eq1]; exact lt_of_lt_of_le (by norm_num) (le_max_left _ _)
  · rw [y_env1_eq2]; exact lt_of_lt_of_le (by norm_num) (le_max_left _ _)
  · rw [y_circ1_eq0]; exact le_max_left _ _
  · rw [y_circ1_eq0]; exact max_le (by norm_num) (min_le_left _ _)
  · rw [y_circ1_eq1]; exact le_max_left _ _
  · rw [y_circ1_eq1]; exact max_le (by norm_num) (min_le_left _ _)
  · rw [y_circ1_eq2]; exact le_max_left _ _
  · rw [y_circ1_eq2]; exact max_le (by norm_num) (min_le_left _ _)
  · rw [y_circ2_eq0]; exact mul_nonneg h20.1 (by norm_num)
  · rw [y_circ2_eq0]; nlinarith [h20.2]
  · rw [y_circ2_eq1]; exact mul_nonneg h21.1 (by norm_num)
  · rw [y_circ2_eq1]; nlinarith [h21.2]
  · rw [y_circ2_eq2]; exact mul_nonneg h22.1 (by norm_num)
  · rw [y_circ2_eq2]; nlinarith [h22.2]
  · rw [y_env2_eq0]; exact mul_nonneg h10.1 (by norm_num)
  · rw [y_env2_eq0]; nlinarith [h10.2]
  · rw [y_env2_eq1]; exact mul_nonneg h11.1 (by norm_num)
  · rw [y_env2_eq1]; nlinarith [h11.2]
  · rw [y_env2_eq2]; exact mul_nonneg h12.1 (by norm_num)
  · rw [y_env2_eq2]; nlinarith [h12.2]

/-- Claim C2 (counterexample): under the all-zero (well-formed) draw stream,
the first environmental target of the `test_models.py` builder is exactly 0,
so it is not strictly positive and carries no positive floor. -/
theorem C2_counterexample :
    WFSrc src0 ∧ y_env2 src0 0 0 = 0 ∧ ¬ (0 < y_env2 src0 0 0) := by
  refine ⟨by norm_num [WFSrc, src0, metals, processes, eol_options], ?_, ?_⟩
  · norm_num [y_env2, src0]
  · norm_num [y_env2, src0]

/-- Claim C2 (witness): the amended range statement evaluated on the all-zero
well-formed stream at row 0. -/
theorem C2_witness :
    (1 ≤ y_env1 src0 0 0 ∧ 1/10 ≤ y_env1 src0 0 1 ∧ 1/2 ≤ y_env1 src0 0 2)
  ∧ (0 < y_env1 src0 0 0 ∧ 0 < y_env1 src0 0 1 ∧ 0 < y_env1 src0 0 2)
  ∧ (0 ≤ y_circ1 src0 0 0 ∧ y_circ1 src0 0 0 ≤ 1)
  ∧ (0 ≤ y_circ1 src0 0 1 ∧ y_circ1 src0 0 1 ≤ 100)
  ∧ (0 ≤ y_circ1 src0 0 2 ∧ y_circ1 src0 0 2 ≤ 1)
  ∧ (0 ≤ y_circ2 src0 0 0 ∧ y_circ2 src0 0 0 < 1)
  ∧ (0 ≤ y_circ2 src0 0 1 ∧ y_circ2 src0 0 1 < 100)
  ∧ (0 ≤ y_circ2 src0 0 2 ∧ y_circ2 src0 0 2 < 1)
  ∧ (0 ≤ y_env2 src0 0 0 ∧ y_env2 src0 0 0 < 100)
  ∧ (0 ≤ y_env2 src0 0 1 ∧ y_env2 src0 0 1 < 10)
  ∧ (0 ≤ y_env2 src0 0 2 ∧ y_env2 src0 0 2 < 50) :=
  C2_target_ranges src0 0 (by norm_num [WFSrc, src0, metals, processes, eol_options])

/-- Claim C9: the synthetic feature matrix of `create_simple_fallback_model`
has 1000 rows and 13 columns; for every well-formed draw stream and row,
columns 0, 1, 2 hold integer codes below the respective category counts,
columns 3 to 6 lie in [0,2000], [0,20], [0,30] and [0,5], and every column
from 7 on keeps its raw uniform draw in [0,1). -/
theorem C9_feature_matrix (src : RandSrc) (h : WFSrc src) (i j : Nat) :
    n_samples1 = 1000 ∧ n_features = 13
  ∧ (∃ k : Nat, X1 src i 0 = (k : ℚ) ∧ k < metals.length)
  ∧ (∃ k : Nat, X1 src i 1 = (k : ℚ) ∧ k < processes.length)
  ∧ (∃ k : Nat, X1 src i 2 = (k : ℚ) ∧ k < eol_options.length)
  ∧ (0 ≤ X1 src i 3 ∧ X1 src i 3 ≤ 2000)
  ∧ (0 ≤ X1 src i 4 ∧ X1 src i 4 ≤ 20)
  ∧ (0 ≤ X1 src i 5 ∧ X1 src i 5 ≤ 30)
  ∧ (0 ≤ X1 src i 6 ∧ X1 src i 6 ≤ 5)
  ∧ (7 ≤ j → 0 ≤ X1 src i j ∧ X1 src i j < 1) := by
  obtain ⟨hr, hm, hp, he⟩ := h
  have h3 := hr 0 i 3; have h4 := hr 0 i 4; have h5 := hr 0 i 5; have h6 := hr 0 i 6
  refine ⟨rfl, rfl, ⟨src.randintMetal i, rfl, hm i⟩,
    ⟨src.randintProcess i, rfl, hp i⟩,
    ⟨src.randintEol i, rfl, he i⟩, ?_, ?_, ?_, ?_, ?_⟩
  · rw [X1_eq3]; exact ⟨mul_nonneg h3.1 (by norm_num), by nlinarith [h3.2]⟩
  · rw [X1_eq4]; exact ⟨mul_nonneg h4.1 (by norm_num), by nlinarith [h4.2]⟩
  · rw [X1_eq5]; exact ⟨mul_nonneg h5.1 (by norm_num), by nlinarith [h5.2]⟩
  · rw [X1_eq6]; exact ⟨mul_nonneg h6.1 (by norm_num), by nlinarith [h6.2]⟩
  · intro hj
    have e0 : j ≠ 0 := by omega
    have e1 : j ≠ 1 := by omega
    have e2 : j ≠ 2 := by omega
    have e3 : j ≠ 3 := by omega
    have e4 : j ≠ 4 := by omega
    have e5 : j ≠ 5 := by omega
    have e6 : j ≠ 6 := by omega
    simp only [X1, if_neg e0, if_neg e1, if_neg e2, if_neg e3, if_neg e4,
      if_neg e5, if_neg e6]
    exact hr 0 i j

/-- Claim C9 (witness): the feature-matrix property evaluated on the all-zero
well-formed stream at row 0, column 7. -/
theorem C9_witness :
    n_samples1 = 1000 ∧ n_features = 13
  ∧ (∃ k : Nat, X1 src0 0 0 = (k : ℚ) ∧ k < metals.length)
  ∧ (∃ k : Nat, X1 src0 0 1 = (k : ℚ) ∧ k < processes.length)
  ∧ (∃ k : Nat, X1 src0 0 2 = (k : ℚ) ∧ k < eol_options.length)
  ∧ (0 ≤ X1 src0 0 3 ∧ X1 src0 0 3 ≤ 2000)
  ∧ (0 ≤ X1 src0 0 4 ∧ X1 src0 0 4 ≤ 20)
  ∧ (0 ≤ X1 src0 0 5 ∧ X1 src0 0 5 ≤ 30)
  ∧ (0 ≤ X1 src0 0 6 ∧ X1 src0 0 6 ≤ 5)
  ∧ (7 ≤ 7 → 0 ≤ X1 src0 0 7 ∧ X1 src0 0 7 < 1) :=
  C9_feature_matrix src0 (by norm_num [WFSrc, src0, metals, processes, eol_options]) 0 7

/-- Claim C4 (counterexample): the builders hard-code `np.random.seed(42)`
and take no seed parameter, so a run whose caller-side seed is 0 still trains
on the draws of seed 42: its training-matrix entry (0,3) is 840 under the
concrete stream family `envC`, whereas the spec's explicitly seeded generator
at seed 0 puts 0 there. -/
theorem C4_counterexample :
    artifactTrainXEntry (create_simple_fallback_model (envC 0) envC) 0 3 = some 840
  ∧ specSeededGeneratorX envC 0 0 3 = 0
  ∧ (840 : ℚ) ≠ 0 := by
  refine ⟨?_, by norm_num [specSeededGeneratorX, X1, envC], by norm_num⟩
  have h : artifactTrainXEntry (create_simple_fallback_model (envC 0) envC) 0 3
      = some (X1 (envC 42) 0 3) := rfl
  rw [h]
  norm_num [X1, envC]

/-- Claim C4 (amended): both builders draw every random value from the stream
selected by the hard-coded seed 42, independently of the ambient stream, so
any two runs over the same generator semantics produce identical artifacts
(and in particular identical feature and target matrices). -/
theorem C4_fixed_seed (a1 a2 : RandSrc) (e1 e2 : Nat → RandSrc) (h : e1 42 = e2 42) :
    create_simple_fallback_model a1 e1 = create_simple_fallback_model a2 e2
  ∧ create_fallback_model a1 e1 = create_fallback_model a2 e2 := by
  constructor
  · simp only [create_simple_fallback_model, h]
  · simp only [create_fallback_model, h]

/-- Claim C4 (witness): two runs with different ambient streams produce
identical artifacts. -/
theorem C4_witness :
    create_simple_fallback_model src0 envC = create_simple_fallback_model srcP2 envC
  ∧ create_fallback_model src0 envC = create_fallback_model srcP2 envC :=
  C4_fixed_seed src0 srcP2 envC envC rfl

/-- Claim C5: `check_health` returns true as soon as an attempt receives HTTP
status 200, having issued exactly that many GET requests; when no attempt
within the budget receives 200 it returns false after issuing exactly
`max_attempts = 30` requests; it is total (never raises), every connection
failure, timeout (`resp k = none`) or non-200 status counting as one failed
attempt before the next retry. -/
theorem C5_health_poller (resp : Nat → Option Nat) :
    max_attempts = 30
  ∧ ((∀ j, j < max_attempts → resp j ≠ some 200) →
      check_health resp = (false, max_attempts))
  ∧ (∀ m, m < max_attempts → resp m = some 200 →
      (∀ j, j < m → resp j ≠ some 200) → check_health resp = (true, m + 1)) := by
  refine ⟨rfl, ?_, ?_⟩
  · intro h
    have e := checkHealthAux_fail resp max_attempts 0 (fun j _ hj2 => h j (by omega))
    simpa [check_health] using e
  · intro m hm h200 hprev
    have e := checkHealthAux_success resp max_attempts 0 m (by omega) (by omega) h200
      (fun j _ hj2 => hprev j hj2)
    simpa [check_health] using e

/-- Claim C5 (witness): an endpoint answering 503 forever yields false after
30 requests; an endpoint failing twice then answering 200 yields true after
3 requests. -/
theorem C5_witness :
    check_health respFailAll = (false, 30) ∧ check_health respThird = (true, 3) := by
  constructor
  · exact (C5_health_poller respFailAll).2.1 (fun j _ => by simp [respFailAll])
  · refine (C5_health_poller respThird).2.2 2 (by norm_num [max_attempts])
      (by norm_num [respThird]) ?_
    intro j hj
    have hij : j ≠ 2 := by omega
    simp [respThird, hij]

/-- Claim C6: `test_model_loading` walks its candidate paths in order and
returns the pair (path, artifact) for the first candidate that exists and
deserializes without error, skipping candidates that are absent or fail to
deserialize; when no candidate succeeds — including when every path is
absent or failing, or the list is empty — it returns (None, None), and it is
total (never raises). -/
theorem C6_load_chain (fs : LoadFS) :
    ((∀ p ∈ model_paths, ¬ loadOk fs p) → test_model_loading fs = (none, none))
  ∧ (∀ ps, (∀ p ∈ ps, ¬ loadOk fs p) → loadChain fs ps = (none, none))
  ∧ (∀ l p r m, fs.pathExists p = true → fs.load p = Except.ok m →
      (∀ q ∈ l, ¬ loadOk fs q) →
      loadChain fs (l ++ p :: r) = (some p, some m)) := by
  refine ⟨?_, loadChain_none fs, ?_⟩
  · intro h
    exact loadChain_none fs model_paths h
  · intro l p r m hpe hl hprev
    exact loadChain_first_success fs p m hpe hl l hprev r

/-- Claim C6 (witness): under an oracle where only the third candidate
exists (and loads), `test_model_loading` returns exactly that path and its
artifact. -/
theorem C6_witness :
    test_model_loading fsW =
      (some ("models/lca_model.pkl"), some (PValue.str ("m"))) := by
  have h := (C6_load_chain fsW).2.2
    [("models/corrected_optimized_dual_target_model.pkl"),
     ("models/clean_optimized_dual_target_model.pkl")]
    ("models/lca_model.pkl")
    [("models/final_optimized_lca_model.pkl")]
    (PValue.str ("m")) rfl rfl ?_
  · exact h
  · intro q hq hok
    obtain ⟨hex, -⟩ := hok
    revert hex
    fin_cases hq <;> decide

/-- Claim C7 (counterexample): the `save_fallback_model` of `test_models.py`
does not create the parent directory: saving to `models/fallback_model.pkl`
on a file system where `models` does not exist returns false instead of
succeeding. -/
theorem C7_counterexample :
    fsEmpty.dirs.contains ("models") = false
  ∧ (save_fallback_model2 fsEmpty (PValue.str ("x")) true).1 = false :=
  ⟨rfl, rfl⟩

/-- Claim C7 (amended): the `save_fallback_model` of
`create_fallback_model.py` first ensures `models/` exists (an idempotent
create), so saving with a missing parent directory succeeds, and it reports
any serialization or write failure as false instead of raising; the
`save_fallback_model` of `test_models.py` also reports write failures as
false and never raises, but performs no directory creation and returns false
whenever the parent directory is absent. -/
theorem C7_save_behaviour (fs : SaveFS) (a : RandSrc) (e : Nat → RandSrc)
    (writeOk : Bool) (art : PValue) :
    (save_fallback_model1 fs a e writeOk).2.dirs.contains ("models") = true
  ∧ (writeOk = true → (save_fallback_model1 fs a e writeOk).1 = true
      ∧ (("models/railway_fallback_model.pkl"),
          PValue.dict (create_simple_fallback_model a e))
            ∈ (save_fallback_model1 fs a e writeOk).2.files)
  ∧ (writeOk = false → (save_fallback_model1 fs a e writeOk).1 = false)
  ∧ makedirs (makedirs fs ("models")) ("models") = makedirs fs ("models")
  ∧ (fs.dirs.contains ("models") = true → writeOk = true →
      (save_fallback_model2 fs art writeOk).1 = true)
  ∧ (fs.dirs.contains ("models") = false →
      (save_fallback_model2 fs art writeOk).1 = false)
  ∧ (writeOk = false → (save_fallback_model2 fs art writeOk).1 = false) := by
  have hp1 : parentDir ("models/railway_fallback_model.pkl") = ("models") := by decide
  have hp2 : parentDir ("models/fallback_model.pkl") = ("models") := by decide
  have hmem : ("models") ∈ (makedirs fs ("models")).dirs := by
    simpa using makedirs_contains fs ("models")
  refine ⟨?_, ?_, ?_, makedirs_idem fs ("models"), ?_, ?_, ?_⟩
  · cases writeOk with
    | true => simp [save_fallback_model1, openWriteDump, hp1, hmem]
    | false => simp [save_fallback_model1, openWriteDump, hp1, hmem]
  · intro hw
    subst hw
    constructor
    · simp [save_fallback_model1, openWriteDump, hp1, hmem]
    · simp [save_fallback_model1, openWriteDump, hp1, hmem]
  · intro hw
    subst hw
    simp [save_fallback_model1, openWriteDump, hp1, hmem]
  · intro hc hw
    subst hw
    have hm2 : ("models") ∈ fs.dirs := by simpa using hc
    simp [save_fallback_model2, openWriteDump, hp2, hm2]
  · intro hc
    have hm2 : ("models") ∉ fs.dirs := by simpa using hc
    simp [save_fallback_model2, openWriteDump, hp2, hm2]
  · intro hw
    subst hw
    by_cases hm2 : ("models") ∈ fs.dirs <;>
      simp [save_fallback_model2, openWriteDump, hp2, hm2]

/-- Claim C7 (witness): on an empty file system, the directory-creating save
succeeds, and a write failure is reported as false. -/
theorem C7_witness :
    (save_fallback_model1 fsEmpty src0 envC true).1 = true
  ∧ (save_fallback_model2 fsEmpty (PValue.str ("x")) false).1 = false := by
  constructor
  · exact ((C7_save_behaviour fsEmpty src0 envC true (PValue.str ("x"))).2.1 rfl).1
  · exact (C7_save_behaviour fsEmpty src0 envC false (PValue.str ("x"))).2.2.2.2.2.2 rfl
